import Mathlib

/-!
Verification of the `hotel_booking` boilerplate generator.

The repository consists of
  * `src/tools/generate-module.js` — a one-shot script that, given a resource
    name on the command line, derives name variants and writes a fixed set of
    template-substituted source files for a CRUD module; and
  * `src/common/dto/pagination.dto.ts` — the shared pagination request shape.

This file shallowly embeds (a) the generator itself (name derivation, the
directory skeleton, and the twelve template files as pure functions of the
resource name), (b) the pagination DTO with its boundary validation, and
(c) the semantics of the code the templates generate: the repository adapter
(`findAll`, `findWithFilter`, `findById`, `update`, `delete` over an abstract
table provided by the external persistence collaborator) and the service
layer on top of it (envelope wrapping, pre-check not-found signalling).
JS falsy checks (`x || default`, `!name`) are embedded explicitly; thrown
exceptions become `Except`; the mutable store becomes explicit state passing.
-/

namespace HotelBooking

/-! ## Generator: name derivation (generate-module.js, lines 4–12, 411–413) -/

/-- Embeds `capitalize` (generate-module.js lines 411–413):
`str.charAt(0).toUpperCase() + str.slice(1)`.  On the empty string,
`charAt(0)` is `""` and `slice(1)` is `""`, so the result is `""`. -/
def capitalize (s : String) : String :=
  match s.data with
  | [] => ""
  | c :: cs => String.mk (c.toUpper :: cs)

/-- Embeds `name.toUpperCase()` (line 11); the `NAME` variant is derived but
never used by any template. -/
def toUpperCaseJS (s : String) : String := s.toUpper

/-! ## Generator: the twelve file templates (generate-module.js lines 26–395)

Each template is transcribed verbatim from the template literal in the
source, as a function of the as-given name `name` and the capitalized name
`Name`.  In the transcription a literal brace is written `\x7b` / `\x7d`
and a literal single quote `\x27`. -/

/-- Template for `domain/NAME.domain.ts` (lines 29–43). -/
def domainTemplate (_name Name : String) : String :=
"export class " ++ Name ++ " \x7b
  id?: string;

  createdAt?: Date;

  updatedAt?: Date;

  deletedAt?: Date;

  constructor(partial: Partial<" ++ Name ++ ">) \x7b
    Object.assign(this, partial);
  \x7d
\x7d
"

/-- Template for `dto/create-NAME.dto.ts` (lines 46–54). -/
def createDtoTemplate (_name Name : String) : String :=
"import \x7b IsNotEmpty, IsString \x7d from \x27class-validator\x27;

export class Create" ++ Name ++ "Dto \x7b
  @IsNotEmpty()
  @IsString()
  name: string;
\x7d
"

/-- Template for `dto/update-NAME.dto.ts` (lines 57–65). -/
def updateDtoTemplate (_name Name : String) : String :=
"import \x7b IsOptional, IsString \x7d from \x27class-validator\x27;

export class Update" ++ Name ++ "Dto \x7b
  @IsOptional()
  @IsString()
  name?: string;
\x7d
"

/-- Template for `dto/filter-NAME.dto.ts` (lines 68–77). -/
def filterDtoTemplate (_name Name : String) : String :=
"import \x7b IsOptional, IsString \x7d from \x27class-validator\x27;
 \x69mport \x7b PaginationDto \x7d from \x27src/common/dto/pagination.dto\x27;

export class Filter" ++ Name ++ "Dto extends PaginationDto \x7b
  @IsOptional()
  @IsString()
  search?: string;
\x7d
"

/-- Template for `infrastructure/entities/NAME.entity.ts` (lines 80–112).
The generated persistence entity declares exactly the columns
`id`, `createdAt`, `updatedAt`, `deletedAt` and binds to table `name`. -/
def entityTemplate (name Name : String) : String :=
"import \x7b
  Entity,
  PrimaryGeneratedColumn,
  Column,
  CreateDateColumn,
  UpdateDateColumn,
  DeleteDateColumn,
  BaseEntity,
\x7d from \x27typeorm\x27;

@Entity(\x27" ++ name ++ "\x27)
export class " ++ Name ++ "Entity extends BaseEntity \x7b
  @PrimaryGeneratedColumn(\x27uuid\x27)
  id: string;

  @CreateDateColumn()
  createdAt: Date;

  @UpdateDateColumn()
  updatedAt: Date;

  @DeleteDateColumn(\x7b nullable: true \x7d)
  deletedAt?: Date;

  constructor(data?: Partial<" ++ Name ++ "Entity>) \x7b
    super();
    if (data) \x7b
      Object.assign(this, data);
    \x7d
  \x7d
\x7d
"

/-- Template for `infrastructure/repositories/NAME.repository.ts`
(lines 115–127), the abstract repository port. -/
def repositoryPortTemplate (name Name : String) : String :=
"import \x7b " ++ Name ++ "Entity \x7d from \x27../entities/" ++ name ++ ".entity\x27;
 \x69mport \x7b PaginatedResult \x7d from \x27src/common/dto/paginated-result.dto\x27;

export abstract class " ++ Name ++ "Repository \x7b
  abstract create(data: Partial<" ++ Name ++ "Entity>): Promise<" ++ Name ++ "Entity>;
  abstract findAll(pagination: any): Promise<PaginatedResult<" ++ Name ++ "Entity>>;
  abstract findById(id: string): Promise<" ++ Name ++ "Entity | null>;
  abstract findWithFilter(filter: any): Promise<PaginatedResult<" ++ Name ++ "Entity>>;
  abstract update(id: string, data: Partial<" ++ Name ++ "Entity>): Promise<" ++ Name ++ "Entity>;
  abstract delete(id: string): Promise<void>;
\x7d
"

/-- Template for `infrastructure/repositories/NAME.repository.impl.ts`
(lines 130–203), the repository adapter.  Note the `findWithFilter` body:
the search term is matched against the literal field name `guestName`,
independent of the resource name. -/
def repositoryImplTemplate (name Name : String) : String :=
"import \x7b Injectable \x7d from \x27@nestjs/common\x27;
\x69mport \x7b InjectRepository \x7d from \x27@nestjs/typeorm\x27;
\x69mport \x7b Repository, ILike \x7d from \x27typeorm\x27;
\x69mport \x7b " ++ Name ++ "Entity \x7d from \x27../entities/" ++ name ++ ".entity\x27;
\x69mport \x7b " ++ Name ++ "Repository \x7d from \x27./" ++ name ++ ".repository\x27;
\x69mport \x7b PaginatedResult \x7d from \x27src/common/dto/paginated-result.dto\x27;

@Injectable()
export class " ++ Name ++ "RepositoryImpl extends " ++ Name ++ "Repository \x7b
  constructor(
    @InjectRepository(" ++ Name ++ "Entity)
    private readonly repo: Repository<" ++ Name ++ "Entity>,
  ) \x7b
    super();
  \x7d

  async create(data: Partial<" ++ Name ++ "Entity>) \x7b
    const entity = this.repo.create(data);
    return this.repo.save(entity);
  \x7d

  async findAll(pagination: any): Promise<PaginatedResult<" ++ Name ++ "Entity>> \x7b
    const limit = pagination.limit || 10;
    const offset = pagination.offset || 0;
    const sort = pagination.sort || \x27createdAt\x27;
    const order = pagination.order || \x27DESC\x27;

    const [data, total] = await this.repo.findAndCount(\x7b
      take: limit,
      skip: offset,
      order: \x7b [sort]: order \x7d,
    \x7d);

    return \x7b data, total, limit, offset \x7d;
  \x7d

  findById(id: string) \x7b
    return this.repo.findOne(\x7b where: \x7b id \x7d \x7d);
  \x7d

  async findWithFilter(filter: any): Promise<PaginatedResult<" ++ Name ++ "Entity>> \x7b
    const limit = filter.limit || 10;
    const offset = filter.offset || 0;
    const sort = filter.sort || \x27createdAt\x27;
    const order = filter.order || \x27DESC\x27;
    const search = filter.search;

    const where: any = search ? \x7b guestName: ILike(`%$\x7bsearch\x7d%`) \x7d : \x7b\x7d;

    const [data, total] = await this.repo.findAndCount(\x7b
      where,
      take: limit,
      skip: offset,
      order: \x7b [sort]: order \x7d,
    \x7d);

    return \x7b data, total, limit, offset \x7d;
  \x7d

  async update(id: string, data: Partial<" ++ Name ++ "Entity>) \x7b
    await this.repo.update(id, data);
    const entity = await this.findById(id);
    if (!entity) \x7b
      throw new Error(`Entity $\x7bid\x7d not found`);
    \x7d
    return entity;
  \x7d

  async delete(id: string) \x7b
    await this.repo.softDelete(id);
  \x7d
\x7d
"

/-- Template for `mappers/NAME.mapper.ts` (lines 206–228). -/
def mapperTemplate (name Name : String) : String :=
"import \x7b " ++ Name ++ "Entity \x7d from \x27../infrastructure/entities/" ++ name ++ ".entity\x27;
\x69mport \x7b " ++ Name ++ " \x7d from \x27../domain/" ++ name ++ ".domain\x27;

export class " ++ Name ++ "Mapper \x7b
  static toDomain(entity: " ++ Name ++ "Entity): " ++ Name ++ " \x7b
    return new " ++ Name ++ "(\x7b
      id: entity.id,
      createdAt: entity.createdAt,
      updatedAt: entity.updatedAt,
      deletedAt: entity.deletedAt,
    \x7d);
  \x7d

  static toEntity(domain: " ++ Name ++ "): Partial<" ++ Name ++ "Entity> \x7b
    const entity: Partial<" ++ Name ++ "Entity> = \x7b\x7d;
    if (domain.id) \x7b
      entity.id = domain.id;
    \x7d
    return entity;
  \x7d
\x7d
"

/-- Template for `infrastructure/providers/NAME.providers.ts`
(lines 231–241), the dependency-wiring declarations. -/
def providersTemplate (name Name : String) : String :=
"import \x7b " ++ Name ++ "Repository \x7d from \x27../repositories/" ++ name ++ ".repository\x27;
\x69mport \x7b " ++ Name ++ "RepositoryImpl \x7d from \x27../repositories/" ++ name ++ ".repository.impl\x27;

export const " ++ Name ++ "Providers = [
  \x7b
    provide: " ++ Name ++ "Repository,
    useClass: " ++ Name ++ "RepositoryImpl,
  \x7d,
];
"

/-- Template for `NAME.service.ts` (lines 244–307), the service layer. -/
def serviceTemplate (name Name : String) : String :=
"import \x7b Injectable, NotFoundException \x7d from \x27@nestjs/common\x27;
\x69mport type \x7b " ++ Name ++ "Repository \x7d from \x27./infrastructure/repositories/" ++ name ++ ".repository\x27;
\x69mport \x7b Create" ++ Name ++ "Dto \x7d from \x27./dto/create-" ++ name ++ ".dto\x27;
\x69mport \x7b Update" ++ Name ++ "Dto \x7d from \x27./dto/update-" ++ name ++ ".dto\x27;
\x69mport \x7b Filter" ++ Name ++ "Dto \x7d from \x27./dto/filter-" ++ name ++ ".dto\x27;
\x69mport \x7b PaginationDto \x7d from \x27src/common/dto/pagination.dto\x27;
\x69mport \x7b " ++ Name ++ "Entity \x7d from \x27./infrastructure/entities/" ++ name ++ ".entity\x27;

@Injectable()
export class " ++ Name ++ "Service \x7b
  constructor(
    private readonly repo: " ++ Name ++ "Repository,
  ) \x7b\x7d

  async create(data: Create" ++ Name ++ "Dto) \x7b
    return this.repo.create(data as Partial<" ++ Name ++ "Entity>);
  \x7d

  async findAll(pagination: PaginationDto) \x7b
    const result = await this.repo.findAll(pagination);
    return \x7b
      data: result.data,
      paginate: \x7b
        total: result.total,
        limit: result.limit,
        offset: result.offset,
        pages: Math.ceil(result.total / result.limit),
      \x7d,
    \x7d;
  \x7d

  async findWithFilter(filter: Filter" ++ Name ++ "Dto) \x7b
    const result = await this.repo.findWithFilter(filter);
    return \x7b
      data: result.data,
      paginate: \x7b
        total: result.total,
        limit: result.limit,
        offset: result.offset,
        pages: Math.ceil(result.total / result.limit),
      \x7d,
    \x7d;
  \x7d

  async findOne(id: string) \x7b
    const entity = await this.repo.findById(id);
    if (!entity) \x7b
      throw new NotFoundException(`" ++ Name ++ " $\x7bid\x7d not found`);
    \x7d
    return entity;
  \x7d

  async update(id: string, data: Update" ++ Name ++ "Dto) \x7b
    await this.findOne(id);
    return this.repo.update(id, data as Partial<" ++ Name ++ "Entity>);
  \x7d

  async delete(id: string) \x7b
    await this.findOne(id);
    return this.repo.delete(id);
  \x7d
\x7d
"

/-- Template for `NAME.controller.ts` (lines 310–376), the HTTP controller. -/
def controllerTemplate (name Name : String) : String :=
"import \x7b
  Controller,
  Get,
  Post,
  Body,
  Param,
  Patch,
  Delete,
  Query,
  HttpCode,
  HttpStatus,
  ValidationPipe,
\x7d from \x27@nestjs/common\x27;
\x69mport \x7b ApiOkResponse \x7d from \x27@nestjs/swagger\x27;
\x69mport \x7b " ++ Name ++ "Service \x7d from \x27./" ++ name ++ ".service\x27;
\x69mport \x7b Create" ++ Name ++ "Dto \x7d from \x27./dto/create-" ++ name ++ ".dto\x27;
\x69mport \x7b Update" ++ Name ++ "Dto \x7d from \x27./dto/update-" ++ name ++ ".dto\x27;
\x69mport \x7b Filter" ++ Name ++ "Dto \x7d from \x27./dto/filter-" ++ name ++ ".dto\x27;
\x69mport \x7b PaginationDto \x7d from \x27src/common/dto/pagination.dto\x27;

@Controller(\x27" ++ name ++ "\x27)
export class " ++ Name ++ "Controller \x7b
  constructor(private readonly service: " ++ Name ++ "Service) \x7b\x7d

  @Post()
  @HttpCode(HttpStatus.CREATED)
  @ApiOkResponse(\x7b description: \x27Created successfully\x27 \x7d)
  create(@Body(ValidationPipe) body: Create" ++ Name ++ "Dto) \x7b
    return this.service.create(body);
  \x7d

  @Get()
  @ApiOkResponse(\x7b description: \x27Get all with pagination\x27 \x7d)
  findAll(@Query(ValidationPipe) pagination: PaginationDto) \x7b
    return this.service.findAll(pagination);
  \x7d

  @Get(\x27filter/search\x27)
  @ApiOkResponse(\x7b description: \x27Get with filter and search\x27 \x7d)
  findWithFilter(@Query(ValidationPipe) filter: Filter" ++ Name ++ "Dto) \x7b
    return this.service.findWithFilter(filter);
  \x7d

  @Get(\x27:id\x27)
  @ApiOkResponse(\x7b description: \x27Get by ID\x27 \x7d)
  findOne(@Param(\x27id\x27) id: string) \x7b
    return this.service.findOne(id);
  \x7d

  @Patch(\x27:id\x27)
  @ApiOkResponse(\x7b description: \x27Updated successfully\x27 \x7d)
  update(
    @Param(\x27id\x27) id: string,
    @Body(ValidationPipe) body: Update" ++ Name ++ "Dto,
  ) \x7b
    return this.service.update(id, body);
  \x7d

  @Delete(\x27:id\x27)
  @HttpCode(HttpStatus.NO_CONTENT)
  @ApiOkResponse(\x7b description: \x27Deleted successfully\x27 \x7d)
  remove(@Param(\x27id\x27) id: string) \x7b
    return this.service.delete(id);
  \x7d
\x7d
"

/-- Template for `NAME.module.ts` (lines 379–394), the module wiring. -/
def moduleTemplate (name Name : String) : String :=
"import \x7b Module \x7d from \x27@nestjs/common\x27;
\x69mport \x7b TypeOrmModule \x7d from \x27@nestjs/typeorm\x27;
\x69mport \x7b " ++ Name ++ "Controller \x7d from \x27./" ++ name ++ ".controller\x27;
\x69mport \x7b " ++ Name ++ "Service \x7d from \x27./" ++ name ++ ".service\x27;
\x69mport \x7b " ++ Name ++ "Entity \x7d from \x27./infrastructure/entities/" ++ name ++ ".entity\x27;
\x69mport \x7b " ++ Name ++ "Providers \x7d from \x27./infrastructure/providers/" ++ name ++ ".providers\x27;

@Module(\x7b
  \x69mports: [TypeOrmModule.forFeature([" ++ Name ++ "Entity])],
  controllers: [" ++ Name ++ "Controller],
  providers: [" ++ Name ++ "Service, ..." ++ Name ++ "Providers],
  exports: [" ++ Name ++ "Service],
\x7d)
export class " ++ Name ++ "Module \x7b\x7d
"

/-! ## Generator: directory skeleton and file set (lines 12–23, 26–399) -/

/-- Embeds `base = path.join('src', 'core', name)` (line 12). -/
def basePath (name : String) : String := "src/core/" ++ name

/-- Embeds the directory list passed to `fs.mkdirSync` (lines 15–23). -/
def generatedDirs (name : String) : List String :=
  let base := basePath name
  [ base
  , base ++ "/domain"
  , base ++ "/dto"
  , base ++ "/infrastructure/entities"
  , base ++ "/infrastructure/repositories"
  , base ++ "/infrastructure/providers"
  , base ++ "/mappers" ]

/-- Embeds the `files` object (lines 26–395): the key is the target path,
the value the template text with the name variants substituted, in the
source's insertion order.  Written out by the loop at lines 397–399. -/
def generatedFiles (name : String) : List (String × String) :=
  let Name := capitalize name
  let base := basePath name
  [ (base ++ "/domain/" ++ name ++ ".domain.ts", domainTemplate name Name)
  , (base ++ "/dto/create-" ++ name ++ ".dto.ts", createDtoTemplate name Name)
  , (base ++ "/dto/update-" ++ name ++ ".dto.ts", updateDtoTemplate name Name)
  , (base ++ "/dto/filter-" ++ name ++ ".dto.ts", filterDtoTemplate name Name)
  , (base ++ "/infrastructure/entities/" ++ name ++ ".entity.ts", entityTemplate name Name)
  , (base ++ "/infrastructure/repositories/" ++ name ++ ".repository.ts",
      repositoryPortTemplate name Name)
  , (base ++ "/infrastructure/repositories/" ++ name ++ ".repository.impl.ts",
      repositoryImplTemplate name Name)
  , (base ++ "/mappers/" ++ name ++ ".mapper.ts", mapperTemplate name Name)
  , (base ++ "/infrastructure/providers/" ++ name ++ ".providers.ts",
      providersTemplate name Name)
  , (base ++ "/" ++ name ++ ".service.ts", serviceTemplate name Name)
  , (base ++ "/" ++ name ++ ".controller.ts", controllerTemplate name Name)
  , (base ++ "/" ++ name ++ ".module.ts", moduleTemplate name Name) ]

/-- Outcome of one generator invocation: exit code, error output, and the
filesystem effects (directories created, files written, in order). -/
structure GenResult where
  exitCode : Nat
  errOutput : List String
  dirsCreated : List String
  filesWritten : List (String × String)
deriving Repr, DecidableEq

/-- Embeds the JS truthiness test `!name` on `process.argv[2]`: true when
the argument is absent (`undefined`) or the empty string. -/
def argvNameFalsy : Option String → Bool
  | none => true
  | some s => s == ""

/-- Embeds the whole script run (generate-module.js lines 4–399): read
`process.argv[2]`; if falsy, print the error and exit with status 1 before
any filesystem effect; otherwise derive the name variants, create the
directory skeleton and write every file of `generatedFiles`. -/
def runGenerator (argv2 : Option String) : GenResult :=
  if argvNameFalsy argv2 then
    { exitCode := 1
    , errOutput := ["❌ Module name required"]
    , dirsCreated := []
    , filesWritten := [] }
  else
    let name := argv2.getD ""
    { exitCode := 0
    , errOutput := []
    , dirsCreated := generatedDirs name
    , filesWritten := generatedFiles name }

/-! ## Pagination DTO (src/common/dto/pagination.dto.ts) -/

/-- Embeds `PaginationDto` (pagination.dto.ts lines 4–22) with its property
initializers as default field values.  `order` is declared `'ASC' | 'DESC'`
but only `@IsString()` is enforced, so it is an arbitrary string here. -/
structure PaginationDto where
  limit : Nat := 10
  offset : Nat := 0
  sort : String := "createdAt"
  order : String := "DESC"
deriving Repr, DecidableEq

/-- Raw pagination query input after the `@Type(() => Number)` coercion:
each field may be absent.  Numeric fields are integers (`Int`), so that the
`@Min` constraints are not vacuous. -/
structure RawPaginationQuery where
  limit : Option Int := none
  offset : Option Int := none
  sort : Option String := none
  order : Option String := none
deriving Repr, DecidableEq

/-- Embeds the boundary `ValidationPipe` run over `PaginationDto`: an
`@IsOptional()` field that is absent takes the initializer default; a
present `limit` must satisfy `@Min(1)` and a present `offset` `@Min(0)`,
otherwise the request is rejected (`none`).  `sort`/`order` only need to be
strings, so they pass through. -/
def validatePagination (q : RawPaginationQuery) : Option PaginationDto :=
  let limit : Int := q.limit.getD 10
  let offset : Int := q.offset.getD 0
  if 1 ≤ limit ∧ 0 ≤ offset then
    some { limit := limit.toNat
         , offset := offset.toNat
         , sort := q.sort.getD "createdAt"
         , order := q.order.getD "DESC" }
  else
    none

/-! ## Semantics of the generated repository adapter

The generated adapter delegates storage to the external persistence
collaborator (spec §6): an entity table supporting `findAndCount` with a
where-predicate, dynamic sort column/direction, skip and take.  The table is
abstract: a row list together with column valuations for sorting and for
string matching. -/

/-- An abstract table of the external store: the rows, an integer valuation
of each named column (used for sorting) and a string valuation (used for
`ILike` matching). -/
structure Table (α : Type) where
  rows : List α
  colVal : String → α → Int
  strVal : String → α → String

/-- Structural where-clause as built by the generated adapter:
`WhereClause.all` embeds `{}` and `WhereClause.ilike f s` embeds
`{ f: ILike(`%s%`) }`. -/
inductive WhereClause
  | all : WhereClause
  | ilike (field : String) (searchTerm : String) : WhereClause
deriving Repr, DecidableEq

/-- Whether `needle` occurs as a contiguous subsequence of `hay`. -/
def containsSeq (needle : List Char) : List Char → Bool
  | [] => needle.isEmpty
  | c :: cs => needle.isPrefixOf (c :: cs) || containsSeq needle cs

/-- Case-insensitive containment: the semantics of SQL `ILIKE '%term%'`
(for a term without wildcard metacharacters, which is how the generated
adapter uses it). -/
def iLikeContains (term value : String) : Bool :=
  containsSeq (term.data.map Char.toLower) (value.data.map Char.toLower)

/-- Evaluation of a where-clause on a row of the table. -/
def evalWhere (t : Table α) : WhereClause → α → Bool
  | .all, _ => true
  | .ilike field s, r => iLikeContains s (t.strVal field r)

/-- Insert `a` into `l` before the first element `b` with `le a b`. -/
def insertBy (le : α → α → Bool) (a : α) : List α → List α
  | [] => [a]
  | b :: bs => if le a b then a :: b :: bs else b :: insertBy le a bs

/-- Insertion sort with respect to the boolean relation `le` (the store's
ORDER BY). -/
def sortBy (le : α → α → Bool) : List α → List α
  | [] => []
  | a :: as => insertBy le a (sortBy le as)

/-- The comparator induced by `order: \x7b [sort]: order \x7d`: by the
`sortKey` column, descending when the direction string is `DESC` and
ascending otherwise. -/
def orderLe (t : Table α) (sortKey ord : String) (r1 r2 : α) : Bool :=
  if ord == "DESC" then t.colVal sortKey r2 ≤ t.colVal sortKey r1
  else t.colVal sortKey r1 ≤ t.colVal sortKey r2

/-- Modelled from the spec: the external persistence collaborator's
`findAndCount` (spec §4.2 listing algorithm, §6 collaborator (a)): keep the
rows matching the where-clause, sort them by the named column and
direction, skip `skip` rows and take `take` rows; the second component is
the number of matching rows before pagination. -/
def findAndCount (t : Table α) (w : WhereClause) (take skip : Nat)
    (sortKey ord : String) : List α × Nat :=
  let matching := t.rows.filter (evalWhere t w)
  (((sortBy (orderLe t sortKey ord) matching).drop skip).take take,
    matching.length)

/-- The `PaginatedResult<T>` shape returned by the adapter:
`\x7b data, total, limit, offset \x7d`. -/
structure PaginatedResult (α : Type) where
  data : List α
  total : Nat
  limit : Nat
  offset : Nat
deriving Repr, DecidableEq

/-- Pagination/filter input as the adapter receives it (`pagination: any`,
`filter: any`): every field may be absent. -/
structure AdapterInput where
  limit : Option Nat := none
  offset : Option Nat := none
  sort : Option String := none
  order : Option String := none
  search : Option String := none
deriving Repr, DecidableEq

/-- Embeds the JS numeric defaulting idiom `v || d`: absent (`undefined`)
and `0` are falsy, any other number is kept. -/
def jsOrNat (v : Option Nat) (d : Nat) : Nat :=
  match v with
  | none => d
  | some n => if n == 0 then d else n

/-- Embeds the JS string defaulting idiom `v || d`: absent and `""` are
falsy, any other string is kept. -/
def jsOrStr (v : Option String) (d : String) : String :=
  match v with
  | none => d
  | some s => if s == "" then d else s

/-- Embeds the adapter's `findAll` (repository impl template, source lines
152–165): default the four pagination values with `||`, call
`findAndCount` with no where-clause, and return
`\x7b data, total, limit, offset \x7d`. -/
def repositoryFindAll (t : Table α) (pagination : AdapterInput) :
    PaginatedResult α :=
  let limit := jsOrNat pagination.limit 10
  let offset := jsOrNat pagination.offset 0
  let sort := jsOrStr pagination.sort "createdAt"
  let order := jsOrStr pagination.order "DESC"
  let dc := findAndCount t .all limit offset sort order
  { data := dc.1, total := dc.2, limit := limit, offset := offset }

/-- Embeds the ternary at source line 178:
`search ? \x7b guestName: ILike(`%$\x7bsearch\x7d%`) \x7d : \x7b\x7d`.
The searched field is the literal `guestName`, independent of the resource
name. -/
def buildWhere (search : Option String) : WhereClause :=
  match search with
  | none => .all
  | some s => if s == "" then .all else .ilike "guestName" s

/-- Embeds the adapter's `findWithFilter` (source lines 171–188): default
the pagination values with `||`, build the where-clause from the search
term, call `findAndCount`, and return
`\x7b data, total, limit, offset \x7d`. -/
def repositoryFindWithFilter (t : Table α) (filter : AdapterInput) :
    PaginatedResult α :=
  let limit := jsOrNat filter.limit 10
  let offset := jsOrNat filter.offset 0
  let sort := jsOrStr filter.sort "createdAt"
  let order := jsOrStr filter.order "DESC"
  let search := filter.search
  let dc := findAndCount t (buildWhere search) limit offset sort order
  { data := dc.1, total := dc.2, limit := limit, offset := offset }

/-! ## Semantics of the generated entity rows, adapter mutations and
service layer -/

/-- A row of the generated persistence entity: columns `id`, `createdAt`,
`updatedAt` and the soft-delete marker `deletedAt` (entity template,
source lines 91–111).  Timestamps are integers. -/
structure EntityRow where
  id : String
  createdAt : Int
  updatedAt : Int
  deletedAt : Option Int
deriving Repr, DecidableEq

/-- The column names declared by the generated entity template (source
lines 93–103). -/
def entityColumns : List String := ["id", "createdAt", "updatedAt", "deletedAt"]

/-- Errors thrown by the generated code: `AppError.notFoundException`
embeds NestJS `NotFoundException` (thrown by the service),
`AppError.jsError` a plain `new Error(...)` (thrown by the adapter). -/
inductive AppError
  | notFoundException (msg : String) : AppError
  | jsError (msg : String) : AppError
deriving Repr, DecidableEq

/-- Embeds the adapter's `findById` (source lines 167–169):
`repo.findOne(\x7b where: \x7b id \x7d \x7d)`.  The external store's
`findOne` on an entity with a `DeleteDateColumn` excludes soft-deleted
rows. -/
def repositoryFindById (rows : List EntityRow) (id : String) :
    Option EntityRow :=
  rows.find? (fun r => r.id == id && r.deletedAt == none)

/-- Embeds the adapter's `update` (source lines 190–197):
`repo.update(id, data)` applies the update payload to every row with the
given id (a plain UPDATE, no soft-delete filter), then re-reads through
`findById`; a miss throws `new Error(`Entity $\x7bid\x7d not found`)`.
The `Partial` update payload is abstracted as a row transformation `upd`.
The pair returns both the outcome and the store after the UPDATE (which
has already happened when the error is thrown). -/
def repositoryUpdate (rows : List EntityRow) (id : String)
    (upd : EntityRow → EntityRow) :
    Except AppError EntityRow × List EntityRow :=
  let rows1 := rows.map fun r => if r.id == id then upd r else r
  match repositoryFindById rows1 id with
  | none => (.error (.jsError ("Entity " ++ id ++ " not found")), rows1)
  | some e => (.ok e, rows1)

/-- Embeds the adapter's `delete` (source lines 199–201):
`repo.softDelete(id)` stamps `deletedAt` on the rows matching the id;
`now` is the store's clock value. -/
def repositorySoftDelete (rows : List EntityRow) (id : String) (now : Int) :
    List EntityRow :=
  rows.map fun r => if r.id == id then { r with deletedAt := some now } else r

/-- Embeds the service's `findOne` (service template, source lines
289–295): `repo.findById(id)`, throwing `NotFoundException` when absent.
`Name` is the capitalized resource name appearing in the message. -/
def serviceFindOne (Name : String) (rows : List EntityRow) (id : String) :
    Except AppError EntityRow :=
  match repositoryFindById rows id with
  | none => .error (.notFoundException (Name ++ " " ++ id ++ " not found"))
  | some e => .ok e

/-- Embeds the service's `update` (source lines 297–300): `await
this.findOne(id)` first (its exception propagates and nothing else runs),
then delegate to the repository's `update`. -/
def serviceUpdate (Name : String) (rows : List EntityRow) (id : String)
    (upd : EntityRow → EntityRow) :
    Except AppError EntityRow × List EntityRow :=
  match serviceFindOne Name rows id with
  | .error e => (.error e, rows)
  | .ok _ => repositoryUpdate rows id upd

/-- Embeds the service's `delete` (source lines 302–305): `await
this.findOne(id)` first, then delegate to the repository's soft delete. -/
def serviceDelete (Name : String) (rows : List EntityRow) (id : String)
    (now : Int) : Except AppError Unit × List EntityRow :=
  match serviceFindOne Name rows id with
  | .error e => (.error e, rows)
  | .ok _ => (.ok (), repositorySoftDelete rows id now)

/-! ## Service listing envelope (service template, source lines 263–287) -/

/-- The `paginate` part of the response envelope. -/
structure Paginate where
  total : Nat
  limit : Nat
  offset : Nat
  pages : Nat
deriving Repr, DecidableEq

/-- The `\x7b data, paginate \x7d` response envelope. -/
structure Envelope (α : Type) where
  data : List α
  paginate : Paginate
deriving Repr, DecidableEq

/-- Embeds `Math.ceil(result.total / result.limit)` (source lines 271 and
284): exact division in `ℚ` followed by the ceiling, the usual shallow
embedding of JS arithmetic on integral numbers. -/
def mathCeilDiv (total limit : Nat) : Nat :=
  (⌈(total : ℚ) / (limit : ℚ)⌉).toNat

/-- The envelope the service builds around a repository result (source
lines 265–273 and 278–286). -/
def serviceWrap (result : PaginatedResult α) : Envelope α :=
  { data := result.data
  , paginate :=
    { total := result.total
    , limit := result.limit
    , offset := result.offset
    , pages := mathCeilDiv result.total result.limit } }

/-- Embeds the service's `findAll` (source lines 263–274). -/
def serviceFindAll (t : Table α) (pagination : AdapterInput) : Envelope α :=
  serviceWrap (repositoryFindAll t pagination)

/-- Embeds the service's `findWithFilter` (source lines 276–287). -/
def serviceFindWithFilter (t : Table α) (filter : AdapterInput) :
    Envelope α :=
  serviceWrap (repositoryFindWithFilter t filter)

/-! ## The listing algorithm in the spec's words (spec §4.2)

Used for the refinement claim that `findAll` and `findWithFilter` are the
same algorithm. -/

/-- The listing algorithm exactly as the spec words it (§4.2): apply the
optional filter (case-insensitive partial match on the search field
`field`, when a search term is present), sort by the named field and
direction, skip `offset` rows, take `limit` rows, and report the
pre-pagination matching count as `total`. -/
def listingSpec (t : Table α) (field : String) (search : Option String)
    (sortKey ord : String) (offset limit : Nat) : PaginatedResult α :=
  let matching :=
    match search with
    | none => t.rows
    | some s => t.rows.filter fun r => iLikeContains s (t.strVal field r)
  { data := ((sortBy (orderLe t sortKey ord) matching).drop offset).take limit
  , total := matching.length
  , limit := limit
  , offset := offset }

/-- The effective search term under JS truthiness: absent and `""` mean
no search. -/
def effectiveSearch (search : Option String) : Option String :=
  match search with
  | none => none
  | some s => if s == "" then none else some s

/-! ## Helper lemmas -/

/-- The `ℚ`-ceiling embedded by `mathCeilDiv` agrees with natural ceiling
division `(total + limit - 1) / limit` whenever `1 ≤ limit`. -/
lemma mathCeilDiv_eq (total limit : Nat) (h : 1 ≤ limit) :
    mathCeilDiv total limit = (total + limit - 1) / limit := by
  have hb : (0 : ℚ) < (limit : ℚ) := by exact_mod_cast h
  obtain ⟨q, hq⟩ : ∃ q, (total + limit - 1) / limit = q := ⟨_, rfl⟩
  have h1 : q * limit ≤ total + limit - 1 := hq ▸ Nat.div_mul_le_self _ _
  have h2 : total + limit - 1 < q * limit + limit := hq ▸ Nat.lt_div_mul_add h
  have hge : total ≤ q * limit := by omega
  have hlt : q * limit < total + limit := by omega
  have hceil : ⌈(total : ℚ) / (limit : ℚ)⌉ = (q : ℕ) := by
    rw [Int.ceil_eq_iff]
    have hgeQ : (total : ℚ) ≤ (q : ℚ) * (limit : ℚ) := by exact_mod_cast hge
    have hltQ : (q : ℚ) * (limit : ℚ) < (total : ℚ) + (limit : ℚ) := by
      exact_mod_cast hlt
    constructor
    · rw [lt_div_iff₀ hb]
      push_cast
      linarith
    · rw [div_le_iff₀ hb]
      push_cast
      linarith
  rw [mathCeilDiv, hceil, Int.toNat_natCast, hq]

/-- A `||`-defaulted limit with default 10 is never zero. -/
lemma one_le_jsOrNat (v : Option Nat) : 1 ≤ jsOrNat v 10 := by
  cases v with
  | none => norm_num [jsOrNat]
  | some n =>
    simp only [jsOrNat]
    split
    · norm_num
    · next h => exact Nat.one_le_iff_ne_zero.mpr (by simpa using h)

/-- Explicit form of the envelope the service builds, with the ceiling
spelled out as natural ceiling division. -/
lemma serviceWrap_eq (r : PaginatedResult α) (h : 1 ≤ r.limit) :
    serviceWrap r =
      { data := r.data
      , paginate :=
        { total := r.total
        , limit := r.limit
        , offset := r.offset
        , pages := (r.total + r.limit - 1) / r.limit } } := by
  simp only [serviceWrap, mathCeilDiv_eq r.total r.limit h]

/-- An empty where-clause keeps every row. -/
lemma filter_evalWhere_all (t : Table α) :
    t.rows.filter (evalWhere t .all) = t.rows := by
  have h : evalWhere t .all = fun _ => true := rfl
  rw [h, List.filter_true]

/-! ## C1 -/

/-- C1: every paginated listing returned by the generated service's
`findAll` and `findWithFilter` is the envelope
`\x7b data, paginate: \x7b total, limit, offset, pages \x7d \x7d` built
from the repository result; the limit is always at least 1 (so the side
condition `limit ≥ 1` of the claim holds on every such listing), and
`pages` equals the ceiling of `total / limit`, spelled out as the natural
ceiling division `(total + limit - 1) / limit`. -/
theorem service_listing_envelope (α : Type) (t : Table α) (q : AdapterInput) :
    1 ≤ (serviceFindAll t q).paginate.limit ∧
    1 ≤ (serviceFindWithFilter t q).paginate.limit ∧
    serviceFindAll t q =
      { data := (repositoryFindAll t q).data
      , paginate :=
        { total := (repositoryFindAll t q).total
        , limit := (repositoryFindAll t q).limit
        , offset := (repositoryFindAll t q).offset
        , pages := ((repositoryFindAll t q).total + (repositoryFindAll t q).limit - 1)
            / (repositoryFindAll t q).limit } } ∧
    serviceFindWithFilter t q =
      { data := (repositoryFindWithFilter t q).data
      , paginate :=
        { total := (repositoryFindWithFilter t q).total
        , limit := (repositoryFindWithFilter t q).limit
        , offset := (repositoryFindWithFilter t q).offset
        , pages := ((repositoryFindWithFilter t q).total +
              (repositoryFindWithFilter t q).limit - 1)
            / (repositoryFindWithFilter t q).limit } } := by
  have hlim1 : (repositoryFindAll t q).limit = jsOrNat q.limit 10 := rfl
  have hlim2 : (repositoryFindWithFilter t q).limit = jsOrNat q.limit 10 := rfl
  have h1 : 1 ≤ (repositoryFindAll t q).limit := hlim1 ▸ one_le_jsOrNat _
  have h2 : 1 ≤ (repositoryFindWithFilter t q).limit := hlim2 ▸ one_le_jsOrNat _
  exact ⟨h1, h2, serviceWrap_eq _ h1, serviceWrap_eq _ h2⟩

/-! ## C5 -/

/-- C5: both generated listing operations are the one listing algorithm of
the spec: optionally filter by case-insensitive partial match (on the
`guestName` field) when a search term is present, sort by the named field
and direction, skip `offset` rows, take at most `limit` rows (hence
`data.length ≤ limit`), and report `total` as the count of matching rows
before pagination.  `findAll` is the instance with no search term. -/
theorem listing_same_algorithm (α : Type) (t : Table α) (q : AdapterInput) :
    repositoryFindAll t q =
      listingSpec t "guestName" none (jsOrStr q.sort "createdAt")
        (jsOrStr q.order "DESC") (jsOrNat q.offset 0) (jsOrNat q.limit 10) ∧
    repositoryFindWithFilter t q =
      listingSpec t "guestName" (effectiveSearch q.search)
        (jsOrStr q.sort "createdAt") (jsOrStr q.order "DESC")
        (jsOrNat q.offset 0) (jsOrNat q.limit 10) ∧
    (repositoryFindAll t q).data.length ≤ (repositoryFindAll t q).limit ∧
    (repositoryFindWithFilter t q).data.length ≤
      (repositoryFindWithFilter t q).limit := by
  refine ⟨?_, ?_, ?_, ?_⟩
  · simp only [repositoryFindAll, findAndCount, listingSpec,
      filter_evalWhere_all]
  · simp only [repositoryFindWithFilter, findAndCount, listingSpec,
      effectiveSearch, buildWhere]
    cases hs : q.search with
    | none => simp only [filter_evalWhere_all]
    | some s =>
      by_cases he : s == ""
      · simp only [he, if_true, filter_evalWhere_all]
      · simp only [he, if_false]
        rfl
  · simp only [repositoryFindAll, findAndCount, List.length_take]
    exact Nat.min_le_left _ _
  · simp only [repositoryFindWithFilter, findAndCount, List.length_take]
    exact Nat.min_le_left _ _

/-! ## Substring infrastructure for the textual claims -/

/-- Whether the string `needle` occurs verbatim in the string `hay`. -/
def strContains (hay needle : String) : Bool :=
  containsSeq needle.data hay.data

lemma isPrefixOf_append_of_isPrefixOf {n xs : List Char} (ys : List Char)
    (h : n.isPrefixOf xs = true) : n.isPrefixOf (xs ++ ys) = true := by
  rw [List.isPrefixOf_iff_prefix] at h ⊢
  exact h.trans (List.prefix_append xs ys)

lemma containsSeq_append_left {n xs : List Char} (ys : List Char)
    (h : containsSeq n xs = true) : containsSeq n (xs ++ ys) = true := by
  induction xs with
  | nil =>
    have hn : n = [] := by simpa [containsSeq, List.isEmpty_iff] using h
    subst hn
    cases ys with
    | nil => rfl
    | cons c cs => simp [containsSeq, List.isPrefixOf]
  | cons c cs ih =>
    simp only [containsSeq, Bool.or_eq_true] at h
    rcases h with h | h
    · simp only [List.cons_append, containsSeq, Bool.or_eq_true]
      exact Or.inl (by simpa using isPrefixOf_append_of_isPrefixOf ys h)
    · simp only [List.cons_append, containsSeq, Bool.or_eq_true]
      exact Or.inr (ih h)

lemma containsSeq_append_right (n xs : List Char) {ys : List Char}
    (h : containsSeq n ys = true) : containsSeq n (xs ++ ys) = true := by
  induction xs with
  | nil => simpa using h
  | cons c cs ih =>
    simp only [List.cons_append, containsSeq, Bool.or_eq_true]
    exact Or.inr ih

/-! ## C2 -/

/-- C2, counterexample: for the concrete resource name `room` the
generator writes twelve files, not eleven. -/
theorem generated_file_count_not_eleven :
    ¬ ((generatedFiles "room").length = 11) := by decide

/-- C2 (amended): for every nonempty resource name the generator writes
exactly twelve generated files — one per fixed template (domain type,
create-request type, update-request type, filter-request type, persistence
entity, repository port, repository adapter, mapper, dependency-wiring
declarations, service, HTTP controller, module-wiring declaration) — each
produced by substituting the name variants into its literal template
string and written to its designated relative path under
`src/core/NAME`. -/
theorem generated_file_set (name : String) (h : name ≠ "") :
    (runGenerator (some name)).filesWritten = generatedFiles name ∧
    (generatedFiles name).length = 12 ∧
    generatedFiles name =
      [ (basePath name ++ "/domain/" ++ name ++ ".domain.ts",
          domainTemplate name (capitalize name))
      , (basePath name ++ "/dto/create-" ++ name ++ ".dto.ts",
          createDtoTemplate name (capitalize name))
      , (basePath name ++ "/dto/update-" ++ name ++ ".dto.ts",
          updateDtoTemplate name (capitalize name))
      , (basePath name ++ "/dto/filter-" ++ name ++ ".dto.ts",
          filterDtoTemplate name (capitalize name))
      , (basePath name ++ "/infrastructure/entities/" ++ name ++ ".entity.ts",
          entityTemplate name (capitalize name))
      , (basePath name ++ "/infrastructure/repositories/" ++ name ++ ".repository.ts",
          repositoryPortTemplate name (capitalize name))
      , (basePath name ++ "/infrastructure/repositories/" ++ name ++ ".repository.impl.ts",
          repositoryImplTemplate name (capitalize name))
      , (basePath name ++ "/mappers/" ++ name ++ ".mapper.ts",
          mapperTemplate name (capitalize name))
      , (basePath name ++ "/infrastructure/providers/" ++ name ++ ".providers.ts",
          providersTemplate name (capitalize name))
      , (basePath name ++ "/" ++ name ++ ".service.ts",
          serviceTemplate name (capitalize name))
      , (basePath name ++ "/" ++ name ++ ".controller.ts",
          controllerTemplate name (capitalize name))
      , (basePath name ++ "/" ++ name ++ ".module.ts",
          moduleTemplate name (capitalize name)) ] := by
  refine ⟨?_, rfl, rfl⟩
  simp [runGenerator, argvNameFalsy, h]

theorem generated_file_set_witness :
    ((runGenerator (some "room")).filesWritten = generatedFiles "room" ∧
      (generatedFiles "room").length = 12) :=
  ⟨(generated_file_set "room" (by decide)).1,
   (generated_file_set "room" (by decide)).2.1⟩

/-! ## C3 -/

/-- C3: when the id resolves to no existing entity, the generated
service's `update` and `delete` signal the not-found condition raised by
the `findOne` pre-check, and the store is returned unchanged — no
repository mutation (`update` or `softDelete`) is attempted and no row is
mutated. -/
theorem service_mutation_precheck (Name : String) (rows : List EntityRow)
    (id : String) (upd : EntityRow → EntityRow) (now : Int)
    (h : repositoryFindById rows id = none) :
    serviceUpdate Name rows id upd =
      (.error (.notFoundException (Name ++ " " ++ id ++ " not found")), rows) ∧
    serviceDelete Name rows id now =
      (.error (.notFoundException (Name ++ " " ++ id ++ " not found")), rows) := by
  constructor <;> simp [serviceUpdate, serviceDelete, serviceFindOne, h]

theorem service_mutation_precheck_witness :
    serviceUpdate "Room" [] "nope" (fun r => r) =
      (.error (.notFoundException "Room nope not found"), []) ∧
    serviceDelete "Room" [] "nope" 0 =
      (.error (.notFoundException "Room nope not found"), []) :=
  service_mutation_precheck "Room" [] "nope" (fun r => r) 0 rfl

/-! ## C4 -/

set_option maxRecDepth 100000 in
/-- C4: the generated adapter's `findWithFilter` matches the search term
against the single fixed field `guestName` — the where-clause built at
source line 178 is `ilike "guestName" s` for every nonempty search term,
and the generated adapter text contains the literal `guestName: ILike(`
for every resource name, so the field is not derived from the name — while
`guestName` is not among the columns the generated persistence entity
declares (`id`, `createdAt`, `updatedAt`, `deletedAt`; for the concrete
name `room` the entity text does not mention `guestName` at all): the
generated search targets a column the generated entity does not define. -/
theorem search_field_not_entity_column :
    (∀ s : String, s ≠ "" → buildWhere (some s) = WhereClause.ilike "guestName" s) ∧
    (∀ name Name : String,
        strContains (repositoryImplTemplate name Name) "guestName: ILike(" = true) ∧
    "guestName" ∉ entityColumns ∧
    entityColumns = ["id", "createdAt", "updatedAt", "deletedAt"] ∧
    strContains (entityTemplate "room" "Room") "guestName" = false := by
  refine ⟨?_, ?_, by decide, rfl, by decide⟩
  · intro s hs
    simp [buildWhere, hs]
  · intro name Name
    show containsSeq _ (repositoryImplTemplate name Name).data = true
    simp only [repositoryImplTemplate, String.data_append, List.append_assoc]
    apply containsSeq_append_right
    apply containsSeq_append_right
    apply containsSeq_append_right
    apply containsSeq_append_right
    apply containsSeq_append_right
    apply containsSeq_append_right
    apply containsSeq_append_right
    apply containsSeq_append_right
    apply containsSeq_append_right
    apply containsSeq_append_right
    apply containsSeq_append_right
    apply containsSeq_append_right
    apply containsSeq_append_right
    apply containsSeq_append_right
    apply containsSeq_append_right
    apply containsSeq_append_right
    apply containsSeq_append_right
    apply containsSeq_append_right
    apply containsSeq_append_right
    apply containsSeq_append_right
    apply containsSeq_append_right
    apply containsSeq_append_right
    apply containsSeq_append_left
    decide

/-! ## C6 -/

/-- C6: invoked with a missing or empty resource-name argument, the
generator prints the error, exits with status 1 (non-zero), and performs
no filesystem effect: no directory creation and no file write. -/
theorem missing_name_aborts (argv2 : Option String)
    (h : argvNameFalsy argv2 = true) :
    runGenerator argv2 =
      { exitCode := 1
      , errOutput := ["❌ Module name required"]
      , dirsCreated := []
      , filesWritten := [] } ∧
    (runGenerator argv2).exitCode ≠ 0 := by
  simp [runGenerator, h]

theorem missing_name_aborts_witness :
    runGenerator none =
      { exitCode := 1
      , errOutput := ["❌ Module name required"]
      , dirsCreated := []
      , filesWritten := [] } ∧
    (runGenerator none).exitCode ≠ 0 :=
  missing_name_aborts none rfl

/-! ## C7 -/

/-- C7: the generated file set (and every other observable effect of a
run) is a pure function of the resource name: two invocations with the
same name produce identical results — the embedding of the script has no
input other than the argument (no clock, no randomness), so equal names
give byte-identical file sets. -/
theorem generator_pure_function (n₁ n₂ : String) (h : n₁ = n₂) :
    runGenerator (some n₁) = runGenerator (some n₂) := by rw [h]

theorem generator_pure_function_witness :
    runGenerator (some "room") = runGenerator (some "room") :=
  generator_pure_function "room" "room" rfl

/-! ## C8 -/

/-- C8: the pagination request shape defaults to
`limit = 10, offset = 0, sort = "createdAt", order = "DESC"`; the boundary
validation accepts a supplied `limit` exactly when it is ≥ 1 and a
supplied `offset` exactly when it is ≥ 0 (and any validated DTO has
`limit ≥ 1`); and a generated listing operation receiving a pagination
input with all fields absent runs with exactly these default values. -/
theorem pagination_defaults_and_floors :
    ({} : PaginationDto) =
      { limit := 10, offset := 0, sort := "createdAt", order := "DESC" } ∧
    validatePagination {} =
      some { limit := 10, offset := 0, sort := "createdAt", order := "DESC" } ∧
    (∀ l : Int, validatePagination { limit := some l } = none ↔ l < 1) ∧
    (∀ o : Int, validatePagination { offset := some o } = none ↔ o < 0) ∧
    (∀ (q : RawPaginationQuery) (d : PaginationDto),
        validatePagination q = some d → 1 ≤ d.limit) ∧
    (∀ (α : Type) (t : Table α),
        repositoryFindAll t {} = listingSpec t "guestName" none "createdAt" "DESC" 0 10 ∧
        repositoryFindWithFilter t {} =
          listingSpec t "guestName" none "createdAt" "DESC" 0 10) := by
  refine ⟨rfl, by decide, ?_, ?_, ?_, ?_⟩
  · intro l
    by_cases hl : 1 ≤ l
    · simp [validatePagination, hl]
    · simp [validatePagination, hl]
      omega
  · intro o
    by_cases ho : 0 ≤ o
    · simp [validatePagination, ho]
    · simp [validatePagination, ho]
      omega
  · intro q d hd
    simp only [validatePagination] at hd
    split at hd
    · next hc =>
      cases hd
      show 1 ≤ (q.limit.getD 10).toNat
      have := hc.1
      omega
    · exact absurd hd (by simp)
  · intro α t
    constructor <;>
      simp [repositoryFindAll, repositoryFindWithFilter, findAndCount,
        listingSpec, jsOrNat, jsOrStr, buildWhere, filter_evalWhere_all]

/-! ## C9 -/

/-- C9: in the generated adapter, `update` re-reads after the UPDATE and a
miss raises a plain `Error` (`AppError.jsError`), while the generated
service's pre-check raises `NotFoundException`
(`AppError.notFoundException`); the two error kinds are distinct, so
update-without-existing-row is guarded in both layers with different
error kinds. -/
theorem adapter_update_double_guard (rows : List EntityRow) (id : String)
    (upd : EntityRow → EntityRow)
    (h : repositoryFindById
        (rows.map fun r => if r.id == id then upd r else r) id = none) :
    (repositoryUpdate rows id upd).1 =
      .error (.jsError ("Entity " ++ id ++ " not found")) ∧
    (∀ (Name : String) (rows2 : List EntityRow),
        repositoryFindById rows2 id = none →
        (serviceUpdate Name rows2 id upd).1 =
          .error (.notFoundException (Name ++ " " ++ id ++ " not found"))) ∧
    (∀ m m' : String, AppError.jsError m ≠ AppError.notFoundException m') := by
  refine ⟨?_, ?_, ?_⟩
  · simp only [repositoryUpdate]
    rw [h]
  · intro Name rows2 h2
    simp [serviceUpdate, serviceFindOne, h2]
  · intro m m' hc
    exact AppError.noConfusion hc

theorem adapter_update_double_guard_witness :
    (repositoryUpdate [] "x" (fun r => r)).1 =
      .error (.jsError "Entity x not found") :=
  (adapter_update_double_guard [] "x" (fun r => r) rfl).1

/-! ## C10 -/

/-- C10: the generated adapter's `findAll` and `findWithFilter` replace
every falsy supplied pagination value with the default — in particular a
supplied `limit` of 0 is silently executed as limit 10 (the run proceeds
with limit 10 and reports `limit = 10`, rather than using 0 or rejecting
the input), a supplied empty `sort`/`order` becomes
`createdAt`/`DESC`, and an absent value likewise takes the default. -/
theorem adapter_redefaults_falsy :
    (jsOrNat (some 0) 10 = 10 ∧ jsOrNat none 10 = 10 ∧
     jsOrNat (some 0) 0 = 0 ∧ jsOrNat none 0 = 0 ∧
     jsOrStr (some "") "createdAt" = "createdAt" ∧
     jsOrStr (some "") "DESC" = "DESC") ∧
    (∀ (α : Type) (t : Table α) (q : AdapterInput), q.limit = some 0 →
        repositoryFindAll t q = repositoryFindAll t { q with limit := some 10 } ∧
        repositoryFindWithFilter t q =
          repositoryFindWithFilter t { q with limit := some 10 } ∧
        (repositoryFindAll t q).limit = 10 ∧
        (repositoryFindWithFilter t q).limit = 10) := by
  refine ⟨⟨rfl, rfl, rfl, rfl, rfl, rfl⟩, ?_⟩
  intro α t q hq
  refine ⟨?_, ?_, ?_, ?_⟩ <;>
    simp [repositoryFindAll, repositoryFindWithFilter, hq, jsOrNat]

end HotelBooking
